import Mathlib

/-!
Verification of the H.264 decode pipeline of `Tello-Python`
(`Tello_Video_With_Pose_Recognition/opencv_h264_decoder.py`).

Shallow embedding conventions:
- Python `bytes` / `bytearray` values are `List Nat` (one entry per byte).
- A decoder's mutable attribute state is passed explicitly: each `decode`
  takes the state before the call and returns the state after.
- Fallible Python code is modelled in `Except String`: a `Except.error`
  value stands for a raised exception, `Except.ok` for a normal return.
  A Python `try`/`except` block becomes a `match` on the body's result.
- NumPy images are `List (List (List Nat))`: rows, then columns, then
  channels, each entry a `uint8` value.
-/

namespace TelloDecoder

/-- A decoded video frame in the tuple shape
`(frame, width, height, linesize)` that the decoders document as their
per-frame return format. -/
structure DecodedFrame where
  image : List (List (List Nat))
  width : Nat
  height : Nat
  linesize : Nat
deriving Repr, DecidableEq

/-! ## OpenCVH264Decoder -/

/-- `OpenCVH264Decoder._decode_h264_buffer`: the decode step.  The source
is a stub: it builds `frames = []` and returns it unconditionally, raising
nothing — its own comment says it returns empty for now to prevent
crashes. -/
def OpenCVH264Decoder._decode_h264_buffer (bufferBytes : List Nat) :
    Except String (List DecodedFrame) :=
  Except.ok []

/-- `OpenCVH264Decoder.decode`: returns `[]` at once on an empty packet;
otherwise extends `frame_buffer` with the packet, runs
`_decode_h264_buffer` inside `try`, keeps the buffer when no frames came
back and clears it after a successful extraction.  The `except` handler
clears the buffer only when its length exceeds the `1024 * 1024` byte
limit.  Result: the frames returned to the caller and the
`frame_buffer` after the call. -/
def OpenCVH264Decoder.decode (frame_buffer : List Nat)
    (packet_data : List Nat) :
    Except String (List DecodedFrame × List Nat) :=
  if packet_data.isEmpty then Except.ok ([], frame_buffer)
  else
    let buffer_bytes := frame_buffer ++ packet_data
    match OpenCVH264Decoder._decode_h264_buffer buffer_bytes with
    | Except.ok decoded_frames =>
      if decoded_frames.isEmpty then Except.ok ([], buffer_bytes)
      else Except.ok (decoded_frames, [])
    | Except.error _ =>
      if buffer_bytes.length > 1024 * 1024 then Except.ok ([], [])
      else Except.ok ([], buffer_bytes)

/-- The `frame_buffer` left behind by one `OpenCVH264Decoder.decode` call
(the call never errors; the error arm is unreachable and keeps the old
buffer). -/
def OpenCVH264Decoder.stepBuffer (frame_buffer packet : List Nat) :
    List Nat :=
  match OpenCVH264Decoder.decode frame_buffer packet with
  | Except.ok (_, buf) => buf
  | Except.error _ => frame_buffer

/-- The `frame_buffer` after a whole sequence of `decode` calls. -/
def OpenCVH264Decoder.runBuffer (frame_buffer : List Nat)
    (packets : List (List Nat)) : List Nat :=
  packets.foldl OpenCVH264Decoder.stepBuffer frame_buffer

/-- Value written into channel 0 at column `j` by
`frame[:, :, 0] = np.linspace(0, 255, width)` followed by the `uint8`
store: `np.linspace(0, 255, 1)` is `[0.0]`, and for `width ≥ 2` the
linspace value `255 * j / (width - 1)` truncates to
`⌊255 * j / (width - 1)⌋` (the float rounding error, below `2⁻⁴⁰`, is far
smaller than the `1 / (width - 1)` distance of any non-integer linspace
value to an integer, so the floor of the real value is exact). -/
def linspace_to_uint8 (width : Nat) (j : Nat) : Nat :=
  if width ≤ 1 then 0 else 255 * j / (width - 1)

/-- `OpenCVH264Decoder.create_dummy_frame`:
`np.zeros((height, width, 3), dtype=np.uint8)` raises `ValueError` when a
dimension is negative; otherwise channel 0 of every row gets the
truncated linspace gradient and channels 1 and 2 stay zero.  A zero
`width` or `height` is accepted by NumPy and yields an empty array of
shape `(height, width, 3)`. -/
def OpenCVH264Decoder.create_dummy_frame (width : Int) (height : Int) :
    Except String (List (List (List Nat))) :=
  if width < 0 ∨ height < 0 then
    Except.error "negative dimensions are not allowed"
  else
    Except.ok (List.replicate height.toNat
      ((List.range width.toNat).map
        (fun j => [linspace_to_uint8 width.toNat j, 0, 0])))

/-! ## H264Decoder (facade) -/

/-- Attribute state of the `H264Decoder` facade: the wrapped
`OpenCVH264Decoder`'s `frame_buffer` plus the `use_fallback` flag. -/
structure H264DecoderState where
  frame_buffer : List Nat
  use_fallback : Bool
deriving Repr, DecidableEq

/-- `H264Decoder.__init__`: builds a fresh `OpenCVH264Decoder` (empty
buffer) and sets `use_fallback = True` unconditionally; the constructor
takes no arguments. -/
def H264Decoder.init : H264DecoderState :=
  { frame_buffer := [], use_fallback := true }

/-- `H264Decoder.decode`: delegates to the wrapped decoder when
`use_fallback` is false (propagating whatever that call does), and
otherwise returns `[]` immediately without touching the wrapped
decoder. -/
def H264Decoder.decode (st : H264DecoderState) (packet_data : List Nat) :
    Except String (List DecodedFrame × H264DecoderState) :=
  if st.use_fallback = false then
    match OpenCVH264Decoder.decode st.frame_buffer packet_data with
    | Except.ok (frames, buf) =>
      Except.ok (frames, { st with frame_buffer := buf })
    | Except.error e => Except.error e
  else
    Except.ok ([], st)

/-- Facade state after one `H264Decoder.decode` call (the error arm is
unreachable and keeps the old state). -/
def H264Decoder.step (st : H264DecoderState) (packet : List Nat) :
    H264DecoderState :=
  match H264Decoder.decode st packet with
  | Except.ok (_, st2) => st2
  | Except.error _ => st

/-- Facade state after a whole sequence of `H264Decoder.decode` calls. -/
def H264Decoder.run (st : H264DecoderState)
    (packets : List (List Nat)) : H264DecoderState :=
  packets.foldl H264Decoder.step st

/-! ## FFmpegH264Decoder -/

/-- Attribute state of `FFmpegH264Decoder`: whether importing the
`subprocess` module in `__init__` succeeded. -/
structure FFmpegH264Decoder where
  ffmpeg_available : Bool
deriving Repr, DecidableEq

/-- `FFmpegH264Decoder.decode`: returns `[]` when FFmpeg is unavailable;
the real pipeline is noted in the source as too complex to implement for
now, so it returns `[]` in the available case as well, spawning nothing
and reading no attribute other than the flag. -/
def FFmpegH264Decoder.decode (d : FFmpegH264Decoder)
    (packet_data : List Nat) : Except String (List DecodedFrame) :=
  if d.ffmpeg_available = false then Except.ok []
  else Except.ok []

/-! ## Pixel access helper -/

/-- Pixel read `img[i][j][c]` with default `0` out of range. -/
def pixelAt (img : List (List (List Nat))) (i j c : Nat) : Nat :=
  ((img.getD i []).getD j []).getD c 0

/-! ## Shared lemmas -/

/-- One `OpenCVH264Decoder.decode` call never errors, always returns no
frames, and leaves the buffer extended by exactly the packet fed in. -/
theorem OpenCVH264Decoder.decode_spec (buf p : List Nat) :
    OpenCVH264Decoder.decode buf p = Except.ok ([], buf ++ p) := by
  unfold OpenCVH264Decoder.decode OpenCVH264Decoder._decode_h264_buffer
  by_cases h : p.isEmpty
  · simp [h, List.isEmpty_iff.mp h]
  · simp [h]

/-- Buffer evolution of one call: always `buf ++ p`. -/
theorem OpenCVH264Decoder.stepBuffer_eq (buf p : List Nat) :
    OpenCVH264Decoder.stepBuffer buf p = buf ++ p := by
  unfold OpenCVH264Decoder.stepBuffer
  rw [OpenCVH264Decoder.decode_spec]

/-- With `use_fallback` set, one facade call changes nothing. -/
theorem H264Decoder.decode_fallback (st : H264DecoderState)
    (p : List Nat) (h : st.use_fallback = true) :
    H264Decoder.decode st p = Except.ok ([], st) := by
  unfold H264Decoder.decode
  simp [h]

/-- With `use_fallback` set, the facade step fixes the state. -/
theorem H264Decoder.step_fallback (st : H264DecoderState)
    (p : List Nat) (h : st.use_fallback = true) :
    H264Decoder.step st p = st := by
  unfold H264Decoder.step
  rw [H264Decoder.decode_fallback st p h]

/-- `getD` on a long enough `replicate` returns the repeated element. -/
theorem getD_replicate_of_lt {α : Type} (a d : α) (n i : Nat)
    (h : i < n) : (List.replicate n a).getD i d = a := by
  simp [List.getD_eq_getElem?_getD, List.getElem?_replicate, h]

/-- `getD` on `(List.range n).map f` in range returns `f j`. -/
theorem getD_range_map_of_lt {α : Type} (f : Nat → α) (d : α)
    (n j : Nat) (h : j < n) :
    ((List.range n).map f).getD j d = f j := by
  simp [List.getD_eq_getElem?_getD, List.getElem?_map,
    List.getElem?_range, h]

/-! ## Claims -/

/-- Claim C1: for every buffer state and every packet, both
`OpenCVH264Decoder.decode` and the facade `H264Decoder.decode` (in either
fallback mode) finish without an exception, returning an ordered list of
decoded frames — here always the empty list, since malformed or
incomplete input is signalled only by an empty result. -/
theorem C1_decode_never_raises :
    (∀ buf p, (OpenCVH264Decoder.decode buf p).isOk = true) ∧
    (∀ st p, (H264Decoder.decode st p).isOk = true) := by
  constructor
  · intro buf p
    rw [OpenCVH264Decoder.decode_spec]
    rfl
  · intro st p
    unfold H264Decoder.decode
    by_cases h : st.use_fallback = false
    · simp [h, OpenCVH264Decoder.decode_spec]
      rfl
    · simp [h]
      rfl

/-- Claim C2: whenever the facade's `use_fallback` flag is true,
`H264Decoder.decode` returns an empty frame list and leaves the whole
state — in particular the inner `frame_buffer` — untouched, for every
packet and every accumulated history. -/
theorem C2_fallback_empty (st : H264DecoderState) (p : List Nat)
    (h : st.use_fallback = true) :
    H264Decoder.decode st p = Except.ok ([], st) :=
  H264Decoder.decode_fallback st p h

/-- Witness for C2 at the freshly constructed facade and a concrete
packet. -/
theorem C2_fallback_empty_witness :
    H264Decoder.init.use_fallback = true ∧
    H264Decoder.decode H264Decoder.init [7, 8, 9] =
      Except.ok ([], H264Decoder.init) :=
  ⟨rfl, C2_fallback_empty H264Decoder.init [7, 8, 9] rfl⟩

/-- Counterexample to C3 as stated: one `decode` call with a
1,100,000-byte packet and no frame produced leaves the `frame_buffer`
holding the whole packet — longer than the 1,048,576-byte ceiling and
not reset to empty. -/
theorem C3_ceiling_counterexample :
    OpenCVH264Decoder.decode [] (List.replicate 1100000 0) =
      Except.ok ([], List.replicate 1100000 0) ∧
    1048576 < (List.replicate 1100000 (0 : Nat)).length ∧
    List.replicate 1100000 (0 : Nat) ≠ [] := by
  refine ⟨?_, ?_, ?_⟩
  · rw [OpenCVH264Decoder.decode_spec, List.nil_append]
  · rw [List.length_replicate]
    decide
  · apply List.ne_nil_of_length_pos
    rw [List.length_replicate]
    decide

/-- Claim C3 (amended): the ceiling reset sits only in the `except`
handler, which is unreachable because the stub backend neither raises
nor produces frames; so no `decode` call ever resets the buffer, and
after any sequence of calls the buffer is the starting buffer followed by
every packet in order, with no ceiling enforced. -/
theorem C3_buffer_grows_unbounded (buf : List Nat)
    (ps : List (List Nat)) :
    OpenCVH264Decoder.runBuffer buf ps = buf ++ ps.flatten := by
  induction ps generalizing buf with
  | nil => simp [OpenCVH264Decoder.runBuffer]
  | cons p ps ih =>
    unfold OpenCVH264Decoder.runBuffer at *
    rw [List.foldl_cons, OpenCVH264Decoder.stepBuffer_eq, ih,
      List.flatten_cons, List.append_assoc]

/-- Claim C4: the decode step is a stub — `_decode_h264_buffer` returns
no frames on every buffer, and consequently `OpenCVH264Decoder.decode`
returns an empty frame list on every packet. -/
theorem C4_stub_no_frames :
    (∀ b, OpenCVH264Decoder._decode_h264_buffer b = Except.ok []) ∧
    (∀ buf p, OpenCVH264Decoder.decode buf p =
      Except.ok ([], buf ++ p)) :=
  ⟨fun _ => rfl, OpenCVH264Decoder.decode_spec⟩

/-- Claim C5: across two consecutive `OpenCVH264Decoder.decode` calls
with no successful frame extraction in either, the buffer afterwards is
the starting buffer concatenated with both packets (exactly — no
truncation ever applies, so a fortiori up to the ceiling). -/
theorem C5_two_call_concat (buf p1 p2 : List Nat)
    (fs1 fs2 : List DecodedFrame) (b1 b2 : List Nat)
    (h1 : OpenCVH264Decoder.decode buf p1 = Except.ok (fs1, b1))
    (h2 : OpenCVH264Decoder.decode b1 p2 = Except.ok (fs2, b2))
    (hf1 : fs1 = []) (hf2 : fs2 = []) :
    b2 = buf ++ p1 ++ p2 := by
  rw [OpenCVH264Decoder.decode_spec] at h1
  rw [OpenCVH264Decoder.decode_spec] at h2
  simp only [Except.ok.injEq, Prod.mk.injEq] at h1 h2
  rw [← h2.2, ← h1.2]

/-- Witness for C5 on the concrete calls `decode [] [1]` then
`decode [1] [2]`. -/
theorem C5_two_call_concat_witness :
    OpenCVH264Decoder.decode [] [1] = Except.ok ([], [1]) ∧
    OpenCVH264Decoder.decode [1] [2] = Except.ok ([], [1, 2]) ∧
    [1, 2] = ([] : List Nat) ++ [1] ++ [2] :=
  ⟨OpenCVH264Decoder.decode_spec [] [1],
   OpenCVH264Decoder.decode_spec [1] [2],
   C5_two_call_concat [] [1] [2] [] [] [1] [1, 2]
     (OpenCVH264Decoder.decode_spec [] [1])
     (OpenCVH264Decoder.decode_spec [1] [2]) rfl rfl⟩

/-- Claim C6: an empty packet is a no-op on every backend: the OpenCV
backend returns no frames and leaves its buffer exactly as it was (no
append, no reset), the facade returns no frames and keeps its state in
both fallback modes, and the FFmpeg backend returns no frames. -/
theorem C6_empty_packet_noop :
    (∀ buf, OpenCVH264Decoder.decode buf [] = Except.ok ([], buf)) ∧
    (∀ st, H264Decoder.decode st [] = Except.ok ([], st)) ∧
    (∀ d : FFmpegH264Decoder,
      FFmpegH264Decoder.decode d [] = Except.ok []) := by
  refine ⟨fun buf => ?_, fun st => ?_, fun d => ?_⟩
  · rw [OpenCVH264Decoder.decode_spec]
    simp
  · obtain ⟨fb, uf⟩ := st
    unfold H264Decoder.decode
    by_cases h : uf = false
    · subst h
      simp [OpenCVH264Decoder.decode_spec]
    · simp [h]
  · unfold FFmpegH264Decoder.decode
    by_cases h : d.ffmpeg_available = false <;> simp [h]

/-- Claim C7: for every positive width and height,
`create_dummy_frame` succeeds with an image of exactly `height` rows,
each of `width` pixels of 3 channels; and on the default `(960, 720)`
shape, channel 0 of every row is monotonically non-decreasing left to
right, starting at 0 and ending at 255, while channels 1 and 2 are
zero everywhere. -/
theorem C7_dummy_frame_shape_gradient (w h : Int)
    (hw : 0 < w) (hh : 0 < h) :
    ∃ img, OpenCVH264Decoder.create_dummy_frame w h = Except.ok img ∧
      img.length = h.toNat ∧
      (∀ row ∈ img,
        row.length = w.toNat ∧ ∀ px ∈ row, px.length = 3) ∧
      (w = 960 → h = 720 →
        (∀ i j1 j2, j1 ≤ j2 → j2 < 960 →
          pixelAt img i j1 0 ≤ pixelAt img i j2 0) ∧
        (∀ i < 720,
          pixelAt img i 0 0 = 0 ∧ pixelAt img i 959 0 = 255) ∧
        (∀ i j, i < 720 → j < 960 →
          pixelAt img i j 1 = 0 ∧ pixelAt img i j 2 = 0)) := by
  have hneg : ¬(w < 0 ∨ h < 0) := by omega
  refine ⟨_, by rw [OpenCVH264Decoder.create_dummy_frame, if_neg hneg],
    List.length_replicate _ _, ?_, ?_⟩
  · intro row hrow
    have hrw : row = (List.range w.toNat).map
        (fun j => [linspace_to_uint8 w.toNat j, 0, 0]) :=
      List.eq_of_mem_replicate hrow
    subst hrw
    refine ⟨by simp, ?_⟩
    intro px hpx
    obtain ⟨j, _, hj⟩ := List.mem_map.mp hpx
    rw [← hj]
    rfl
  · rintro rfl rfl
    have hrow : ∀ i : Nat, i < 720 →
        (List.replicate (Int.toNat 720)
          ((List.range (Int.toNat 960)).map
            (fun j => [linspace_to_uint8 (Int.toNat 960) j, 0, 0]))).getD
            i [] =
        (List.range 960).map
          (fun j => [linspace_to_uint8 960 j, 0, 0]) := by
      intro i hi
      exact getD_replicate_of_lt _ _ 720 i hi
    have hpix : ∀ i j : Nat, i < 720 → j < 960 → ∀ c : Nat,
        pixelAt (List.replicate (Int.toNat 720)
          ((List.range (Int.toNat 960)).map
            (fun j => [linspace_to_uint8 (Int.toNat 960) j, 0, 0])))
          i j c =
        [linspace_to_uint8 960 j, 0, 0].getD c 0 := by
      intro i j hi hj c
      unfold pixelAt
      rw [hrow i hi, getD_range_map_of_lt _ _ 960 j hj]
    have hmono : ∀ j1 j2 : Nat, j1 ≤ j2 →
        linspace_to_uint8 960 j1 ≤ linspace_to_uint8 960 j2 := by
      intro j1 j2 hle
      unfold linspace_to_uint8
      simp only [show ¬(960 ≤ 1) by decide, if_false]
      exact Nat.div_le_div_right (Nat.mul_le_mul_left 255 hle)
    refine ⟨?_, ?_, ?_⟩
    · intro i j1 j2 hle hj2
      by_cases hi : i < 720
      · rw [hpix i j1 hi (Nat.lt_of_le_of_lt hle hj2) 0,
          hpix i j2 hi hj2 0]
        exact hmono j1 j2 hle
      · unfold pixelAt
        have hout : (List.replicate (Int.toNat 720)
            ((List.range (Int.toNat 960)).map
              (fun j => [linspace_to_uint8 (Int.toNat 960) j, 0, 0]))).getD
              i [] = [] := by
          apply List.getD_eq_default
          rw [List.length_replicate]
          omega
        rw [hout]
        simp
    · intro i hi
      rw [hpix i 0 hi (by decide) 0, hpix i 959 hi (by decide) 0]
      constructor
      · rfl
      · show linspace_to_uint8 960 959 = 255
        unfold linspace_to_uint8
        decide
    · intro i j hi hj
      rw [hpix i j hi hj 1, hpix i j hi hj 2]
      exact ⟨rfl, rfl⟩

/-- Witness for C7 at the default dimensions `(960, 720)`. -/
theorem C7_dummy_frame_shape_gradient_witness :
    (0 : Int) < 960 ∧ (0 : Int) < 720 ∧
    (∃ img,
      OpenCVH264Decoder.create_dummy_frame 960 720 = Except.ok img ∧
      img.length = (720 : Int).toNat ∧
      (∀ row ∈ img,
        row.length = (960 : Int).toNat ∧ ∀ px ∈ row, px.length = 3) ∧
      ((960 : Int) = 960 → (720 : Int) = 720 →
        (∀ i j1 j2, j1 ≤ j2 → j2 < 960 →
          pixelAt img i j1 0 ≤ pixelAt img i j2 0) ∧
        (∀ i < 720,
          pixelAt img i 0 0 = 0 ∧ pixelAt img i 959 0 = 255) ∧
        (∀ i j, i < 720 → j < 960 →
          pixelAt img i j 1 = 0 ∧ pixelAt img i j 2 = 0))) :=
  ⟨by decide, by decide,
   C7_dummy_frame_shape_gradient 960 720 (by decide) (by decide)⟩

/-- Counterexample to C8 as stated: `create_dummy_frame(0, 10)` does not
fail — NumPy accepts a zero dimension, and the call returns an empty
frame of shape `(10, 0, 3)` (10 rows of 0 pixels). -/
theorem C8_zero_width_counterexample :
    OpenCVH264Decoder.create_dummy_frame 0 10 =
      Except.ok (List.replicate 10 []) := by
  rw [OpenCVH264Decoder.create_dummy_frame, if_neg (by omega)]
  rfl

/-- Claim C8 (amended): `create_dummy_frame` fails (NumPy raises
`ValueError: negative dimensions are not allowed`, not a dedicated
`InvalidDimension` condition) exactly when a dimension is negative; a
zero dimension is accepted and yields an empty frame, so
`create_dummy_frame(0, 10)` returns a frame rather than failing. -/
theorem C8_negative_dims_fail (w h : Int) (hw : w < 0 ∨ h < 0) :
    OpenCVH264Decoder.create_dummy_frame w h =
      Except.error "negative dimensions are not allowed" := by
  rw [OpenCVH264Decoder.create_dummy_frame, if_pos hw]

/-- Witness for C8 (amended) at width `-1`. -/
theorem C8_negative_dims_fail_witness :
    ((-1 : Int) < 0 ∨ (5 : Int) < 0) ∧
    OpenCVH264Decoder.create_dummy_frame (-1) 5 =
      Except.error "negative dimensions are not allowed" :=
  ⟨Or.inl (by decide),
   C8_negative_dims_fail (-1) 5 (Or.inl (by decide))⟩

/-- Claim C9 (implicit): the facade constructor sets `use_fallback` to
true unconditionally (it takes no parameter), so a freshly constructed
`H264Decoder` returns an empty list for every packet, and any sequence of
`decode` calls leaves the state — in particular the inner decoder's
buffer — exactly as constructed until the flag is mutated externally. -/
theorem C9_init_always_fallback :
    H264Decoder.init.use_fallback = true ∧
    (∀ p, H264Decoder.decode H264Decoder.init p =
      Except.ok ([], H264Decoder.init)) ∧
    (∀ ps : List (List Nat),
      H264Decoder.run H264Decoder.init ps = H264Decoder.init) := by
  refine ⟨rfl, fun p => H264Decoder.decode_fallback _ p rfl, fun ps => ?_⟩
  induction ps with
  | nil => rfl
  | cons p ps ih =>
    unfold H264Decoder.run at *
    rw [List.foldl_cons, H264Decoder.step_fallback _ p rfl, ih]

/-- Claim C10 (implicit): `FFmpegH264Decoder.decode` is a constant
function — whatever the packet, and whether or not the `subprocess`
module was importable, it returns an empty frame list without error, and
carries no accumulated state (its only attribute is the availability
flag, which `decode` never changes). -/
theorem C10_ffmpeg_constant_empty :
    ∀ (d : FFmpegH264Decoder) (p : List Nat),
      FFmpegH264Decoder.decode d p = Except.ok [] := by
  intro d p
  unfold FFmpegH264Decoder.decode
  by_cases hd : d.ffmpeg_available = false <;> simp [hd]

end TelloDecoder
